import Mathlib

/-!
Shallow embedding of the SSF-DCF repository:
`src/configuration/coding_plans.py` (coding-plan catalogs and the two local
composite cleaners) and `src/export_initial_contacts.py` (the contact
re-identification exporter). External collaborators (the somali/swahili
cleaners, code schemes, fold strategies, imputation functions and the
Firestore uuid table) are modelled abstractly, as the configuration treats
them as opaque references.
-/

/-- Modelled from the spec: the external sentinel `Codes.NOT_CODED`, the value
every cleaner returns when no valid code can be extracted from the text. -/
def NOT_CODED : String := "NC"

/-- Modelled from the spec: the external sentinel `Codes.STOP`, marking a
respondent who opted out; such rows are ignored entirely by the exporter. -/
def STOP : String := "stop"

/-- Modelled from the spec: the external constant `SomaliaCodes.GALMUDUG`,
one of the two target location codes of the exporter. -/
def GALMUDUG : String := "galmudug"

/-- Modelled from the spec: the external constant `SomaliaCodes.SOUTH_WEST_STATE`,
the other target location code of the exporter. -/
def SOUTH_WEST_STATE : String := "south west state"

/-- Modelled from the spec: the external swahili demographic age cleaner
`swahili.DemographicCleaner.clean_age`. It extracts an integer age from
digit-only text; `none` stands for the `Codes.NOT_CODED` result the real
cleaner returns on non-numeric text (the cleaner contract: malformed input
never raises). -/
def swahili_clean_age (text : String) : Option Int :=
  if text.data.isEmpty then none
  else if text.data.all (fun c => decide (48 ≤ c.toNat) && decide (c.toNat ≤ 57)) then
    some ((text.data.foldl (fun n c => 10 * n + (c.toNat - 48)) 0 : Nat) : Int)
  else none

/-- Modelled from the spec: the recognition set of the external Mogadishu
sub-district cleaner (a stand-in keyword list; the real list is an external
catalog). -/
def MOGADISHU_SUB_DISTRICTS : List String := ["hodan", "wadajir", "boondheere"]

/-- Modelled from the spec: the recognition set of the external Somalia
district cleaner (a stand-in keyword list; the real list is an external
catalog). -/
def SOMALIA_DISTRICTS : List String := ["baidoa", "kismayo", "gaalkacyo"]

/-- Modelled from the spec: `somali.DemographicCleaner.clean_mogadishu_sub_district`;
unrecognised text maps to `NOT_CODED`, per the cleaner contract. -/
def clean_mogadishu_sub_district (text : String) : String :=
  if text ∈ MOGADISHU_SUB_DISTRICTS then text else NOT_CODED

/-- Modelled from the spec: `somali.DemographicCleaner.clean_somalia_district`;
unrecognised text maps to `NOT_CODED`, per the cleaner contract. -/
def clean_somalia_district (text : String) : String :=
  if text ∈ SOMALIA_DISTRICTS then text else NOT_CODED

/-- From `coding_plans.py`: cleans age from the given text, setting to
`NOT_CODED` unless the cleaned age is an integer in the range
10 <= age < 100. -/
def clean_age_with_range_filter (text : String) : String :=
  match swahili_clean_age text with
  | some age => if 10 ≤ age ∧ age < 100 then toString age else NOT_CODED
  | none => NOT_CODED

/-- From `coding_plans.py`: resolves a district only when the Mogadishu
sub-district cleaner found no match on the same raw text; otherwise returns
`NOT_CODED`. -/
def clean_district_if_no_mogadishu_sub_district (text : String) : String :=
  if clean_mogadishu_sub_district text = NOT_CODED then
    clean_somalia_district text
  else
    NOT_CODED

/-- From `src/lib/configuration_objects` (referenced by the catalogs):
the coding-mode enumeration. -/
inductive CodingModes where
  | SINGLE
  | MULTIPLE
  deriving DecidableEq

/-- The external code schemes referenced by name in `coding_plans.py`
(`CodeSchemes.*`), modelled by identity. -/
inductive CodeScheme where
  | S01E01
  | S01E02
  | S01E03
  | S01E04
  | SLD_S01E01
  | SLD_S01E02
  | SLD_S01E03
  | SLD_S01E04
  | SLD_S01E05
  | SLD_S01_CLOSEOUT
  | GENDER
  | AGE
  | AGE_CATEGORY
  | RECENTLY_DISPLACED
  | HOUSEHOLD_LANGUAGE
  | MOGADISHU_SUB_DISTRICT
  | SOMALIA_DISTRICT
  | SOMALIA_REGION
  | SOMALIA_STATE
  | SOMALIA_ZONE
  | WS_CORRECT_DATASET_SCHEME
  deriving DecidableEq

/-- A code of the external WS correct-dataset scheme, identified by its
match value. -/
structure Code where
  match_value : String
  deriving DecidableEq

/-- Modelled from the spec: the external lookup
`CodeSchemes.WS_CORRECT_DATASET_SCHEME.get_code_with_match_value`, which
resolves the WS correct-dataset code for a plan-specific match value. -/
def ws_get_code_with_match_value (v : String) : Code := ⟨v⟩

/-- The cleaner values stored on coding configurations in `coding_plans.py`,
modelled by reference (the catalogs pass them as opaque callables). -/
inductive CleanerRef where
  | clean_gender
  | clean_age_with_range_filter
  | clean_yes_no
  | clean_mogadishu_sub_district
  | clean_district_if_no_mogadishu_sub_district
  deriving DecidableEq

/-- The external fold strategies referenced in `coding_plans.py`
(`FoldStrategies.*`), modelled by reference; `list_of_labels` closes over a
code scheme, as in the source. -/
inductive FoldStrategyRef where
  | assert_equal
  | assert_label_ids_equal
  | list_of_labels (scheme : CodeScheme)
  | concatenate
  deriving DecidableEq

/-- The external imputation functions referenced in `coding_plans.py`
(`code_imputation_functions.*`), modelled by reference. -/
inductive ImputeRef where
  | impute_age_category
  | impute_somalia_location_codes
  deriving DecidableEq

/-- From `src/lib/configuration_objects` (referenced by the catalogs):
one field-level coding rule. -/
structure CodingConfiguration where
  coding_mode : CodingModes
  code_scheme : CodeScheme
  cleaner : Option CleanerRef := none
  coded_field : String
  analysis_file_key : String
  fold_strategy : FoldStrategyRef
  include_in_theme_distribution : Bool := true
  deriving DecidableEq

/-- From `src/lib/configuration_objects` (referenced by the catalogs):
one dataset-level coding declaration. -/
structure CodingPlan where
  dataset_name : Option String := none
  raw_field : String
  time_field : String
  run_id_field : Option String := none
  coda_filename : String
  icr_filename : Option String := none
  coding_configurations : List CodingConfiguration
  code_imputation_function : Option ImputeRef := none
  ws_code : Code
  raw_field_fold_strategy : FoldStrategyRef
  deriving DecidableEq

/-- Replaces every non-overlapping occurrence of `pat` (left to right) with
`rep`; fuel-driven structural recursion so it computes by kernel reduction.
Embeds python str.replace for a non-empty pattern. -/
def replace_aux (pat rep : List Char) : Nat → List Char → List Char
  | 0, s => s
  | _ + 1, [] => []
  | fuel + 1, c :: rest =>
    if pat ≠ [] ∧ List.take pat.length (c :: rest) = pat then
      rep ++ replace_aux pat rep fuel (List.drop pat.length (c :: rest))
    else
      c :: replace_aux pat rep fuel rest

/-- Embeds python str.replace (replace all occurrences of `pat` by `rep`). -/
def string_replace (s pat rep : String) : String :=
  ⟨replace_aux pat.data rep.data s.data.length s.data⟩

/-- Embeds python str.lower for ASCII text. -/
def string_lower (s : String) : String :=
  ⟨s.data.map (fun c =>
    if 65 ≤ c.toNat ∧ c.toNat ≤ 90 then Char.ofNat (c.toNat + 32) else c)⟩

/-- From `coding_plans.py`: builds one RQA coding plan for an episode; the
dataset name is the episode name with `rqa_` replaced away. -/
def make_rqa_coding_plan (episode_name : String) (code_scheme : CodeScheme)
    (ws_match_value : String) (coda_filename : String) : CodingPlan :=
  { dataset_name := some (string_replace episode_name "rqa_" "")
    raw_field := episode_name ++ "_raw"
    time_field := "sent_on"
    run_id_field := some (episode_name ++ "_run_id")
    coda_filename := coda_filename ++ ".json"
    icr_filename := some (string_lower coda_filename ++ ".csv")
    coding_configurations := [
      { coding_mode := CodingModes.MULTIPLE
        code_scheme := code_scheme
        cleaner := none
        coded_field := episode_name ++ "_coded"
        analysis_file_key := episode_name
        fold_strategy := FoldStrategyRef.list_of_labels code_scheme
        include_in_theme_distribution := true }]
    ws_code := ws_get_code_with_match_value ws_match_value
    raw_field_fold_strategy := FoldStrategyRef.concatenate }

/-- From `coding_plans.py`: the RQA plan catalog. The python `assert` on an
unknown pipeline name is embedded as `none` (assertion failure, no value
returned). -/
def get_rqa_coding_plans (pipeline_name : String) : Option (List CodingPlan) :=
  if pipeline_name = "SSF-DCF" then
    some [make_rqa_coding_plan "rqa_dcf_s01e01" CodeScheme.S01E01 "ssf dcf s01e01" "SSF_DCF_s01e01",
          make_rqa_coding_plan "rqa_dcf_s01e02" CodeScheme.S01E02 "ssf dcf s01e02" "SSF_DCF_s01e02",
          make_rqa_coding_plan "rqa_dcf_s01e03" CodeScheme.S01E03 "ssf dcf s01e03" "SSF_DCF_s01e03",
          make_rqa_coding_plan "rqa_dcf_s01e04" CodeScheme.S01E04 "ssf dcf s01e04" "SSF_DCF_s01e04"]
  else if pipeline_name = "SSF-SLD" then
    some [make_rqa_coding_plan "rqa_sld_s01e01" CodeScheme.SLD_S01E01 "ssf sld s01e01" "SSF_SLD_s01e01",
          make_rqa_coding_plan "rqa_sld_s01e02" CodeScheme.SLD_S01E02 "ssf sld s01e02" "SSF_SLD_s01e02",
          make_rqa_coding_plan "rqa_sld_s01e03" CodeScheme.SLD_S01E03 "ssf sld s01e03" "SSF_SLD_s01e03",
          make_rqa_coding_plan "rqa_sld_s01e04" CodeScheme.SLD_S01E04 "ssf sld s01e04" "SSF_SLD_s01e04",
          make_rqa_coding_plan "rqa_sld_s01e05" CodeScheme.SLD_S01E05 "ssf sld s01e05" "SSF_SLD_s01e05",
          make_rqa_coding_plan "rqa_sld_s01_closeout" CodeScheme.SLD_S01_CLOSEOUT "ssf sld s01 closeout" "SSF_SLD_s01_closeout"]
  else
    none

/-- From `coding_plans.py`: the demographic plan catalog — gender, age,
recently-displaced, household-language, location; the `pipeline_name`
argument is not used by the body. -/
def get_demog_coding_plans (_pipeline_name : String) : List CodingPlan :=
  [{ raw_field := "gender_raw"
     time_field := "gender_time"
     coda_filename := "IMAQAL_gender.json"
     coding_configurations := [
       { coding_mode := CodingModes.SINGLE
         code_scheme := CodeScheme.GENDER
         cleaner := some CleanerRef.clean_gender
         coded_field := "gender_coded"
         analysis_file_key := "gender"
         fold_strategy := FoldStrategyRef.assert_label_ids_equal }]
     ws_code := ws_get_code_with_match_value "gender"
     raw_field_fold_strategy := FoldStrategyRef.assert_equal },

   { raw_field := "age_raw"
     time_field := "age_time"
     coda_filename := "IMAQAL_age.json"
     coding_configurations := [
       { coding_mode := CodingModes.SINGLE
         code_scheme := CodeScheme.AGE
         cleaner := some CleanerRef.clean_age_with_range_filter
         coded_field := "age_coded"
         analysis_file_key := "age"
         fold_strategy := FoldStrategyRef.assert_label_ids_equal
         include_in_theme_distribution := false },
       { coding_mode := CodingModes.SINGLE
         code_scheme := CodeScheme.AGE_CATEGORY
         cleaner := none
         coded_field := "age_category_coded"
         analysis_file_key := "age_category"
         fold_strategy := FoldStrategyRef.assert_label_ids_equal }]
     code_imputation_function := some ImputeRef.impute_age_category
     ws_code := ws_get_code_with_match_value "age"
     raw_field_fold_strategy := FoldStrategyRef.assert_equal },

   { raw_field := "recently_displaced_raw"
     time_field := "recently_displaced_time"
     coda_filename := "IMAQAL_recently_displaced.json"
     coding_configurations := [
       { coding_mode := CodingModes.SINGLE
         code_scheme := CodeScheme.RECENTLY_DISPLACED
         cleaner := some CleanerRef.clean_yes_no
         coded_field := "recently_displaced_coded"
         analysis_file_key := "recently_displaced"
         fold_strategy := FoldStrategyRef.assert_label_ids_equal }]
     ws_code := ws_get_code_with_match_value "recently displaced"
     raw_field_fold_strategy := FoldStrategyRef.assert_equal },

   { raw_field := "household_language_raw"
     time_field := "household_language_time"
     coda_filename := "IMAQAL_household_language.json"
     coding_configurations := [
       { coding_mode := CodingModes.SINGLE
         code_scheme := CodeScheme.HOUSEHOLD_LANGUAGE
         cleaner := none
         coded_field := "household_language_coded"
         analysis_file_key := "household_language"
         fold_strategy := FoldStrategyRef.assert_label_ids_equal }]
     ws_code := ws_get_code_with_match_value "hh language"
     raw_field_fold_strategy := FoldStrategyRef.assert_equal },

   { raw_field := "location_raw"
     time_field := "location_time"
     coda_filename := "IMAQAL_location.json"
     coding_configurations := [
       { coding_mode := CodingModes.SINGLE
         code_scheme := CodeScheme.MOGADISHU_SUB_DISTRICT
         fold_strategy := FoldStrategyRef.assert_label_ids_equal
         cleaner := some CleanerRef.clean_mogadishu_sub_district
         coded_field := "mogadishu_sub_district_coded"
         analysis_file_key := "mogadishu_sub_district"
         include_in_theme_distribution := false },
       { coding_mode := CodingModes.SINGLE
         code_scheme := CodeScheme.SOMALIA_DISTRICT
         cleaner := some CleanerRef.clean_district_if_no_mogadishu_sub_district
         fold_strategy := FoldStrategyRef.assert_label_ids_equal
         coded_field := "district_coded"
         analysis_file_key := "district"
         include_in_theme_distribution := false },
       { coding_mode := CodingModes.SINGLE
         code_scheme := CodeScheme.SOMALIA_REGION
         fold_strategy := FoldStrategyRef.assert_label_ids_equal
         cleaner := none
         coded_field := "region_coded"
         analysis_file_key := "region" },
       { coding_mode := CodingModes.SINGLE
         code_scheme := CodeScheme.SOMALIA_STATE
         fold_strategy := FoldStrategyRef.assert_label_ids_equal
         cleaner := none
         coded_field := "state_coded"
         analysis_file_key := "state" },
       { coding_mode := CodingModes.SINGLE
         code_scheme := CodeScheme.SOMALIA_ZONE
         fold_strategy := FoldStrategyRef.assert_label_ids_equal
         cleaner := none
         coded_field := "zone_coded"
         analysis_file_key := "zone"
         include_in_theme_distribution := false }]
     code_imputation_function := some ImputeRef.impute_somalia_location_codes
     ws_code := ws_get_code_with_match_value "location"
     raw_field_fold_strategy := FoldStrategyRef.assert_equal }]

/-- From `coding_plans.py`: the follow-up plan family, currently empty. -/
def get_follow_up_coding_plans (_pipeline_name : String) : List CodingPlan :=
  []

/-- From `coding_plans.py`: the engagement plan family, currently empty. -/
def get_engagement_coding_plans (_pipeline_name : String) : List CodingPlan :=
  []

/-- One input CSV row as seen by the exporter: the `state` column is always
present (input contract); the `uid` column may be missing, which the source
guards with an explicit key-presence check. -/
structure Row where
  state : String
  uid : Option String

/-- From `export_initial_contacts.py`: the set of target location codes. -/
def TARGET_LOCATIONS : List String := [GALMUDUG, SOUTH_WEST_STATE]

/-- The exporter's per-file accumulator: the `file_uuids` set and the
per-file location counters (a total map over location codes; only target
locations are ever incremented). -/
structure FileState where
  file_uuids : List String
  file_counts : String → Nat

/-- The exporter's cumulative accumulator: the running `uuids` set and the
cumulative location counters. -/
structure ScanState where
  uuids : List String
  counts : String → Nat

/-- The fresh per-file accumulator created at the top of each file's loop. -/
def initFileState : FileState :=
  { file_uuids := [], file_counts := fun _ => 0 }

/-- The cumulative accumulator before any file is processed. -/
def initScanState : ScanState :=
  { uuids := [], counts := fun _ => 0 }

/-- From `export_initial_contacts.py`: the body of the per-row search loop.
Rows whose state is `STOP` are skipped; rows in a target location without a
`uid` key are skipped; otherwise the uid is added (if new) to the per-file
and cumulative sets, incrementing the matching location counter with each
first occurrence. -/
def processRow (fs : FileState) (gs : ScanState) (row : Row) : FileState × ScanState :=
  if row.state = STOP then (fs, gs)
  else
    let location := row.state
    if location ∈ TARGET_LOCATIONS then
      match row.uid with
      | none => (fs, gs)
      | some u =>
        let fs' :=
          if u ∈ fs.file_uuids then fs
          else
            { file_uuids := u :: fs.file_uuids
              file_counts := fun l => if l = location then fs.file_counts l + 1 else fs.file_counts l }
        let gs' :=
          if u ∈ gs.uuids then gs
          else
            { uuids := u :: gs.uuids
              counts := fun l => if l = location then gs.counts l + 1 else gs.counts l }
        (fs', gs')
    else (fs, gs)

/-- From `export_initial_contacts.py`: processing of one input file — a fresh
per-file accumulator folded over the file's rows alongside the cumulative
accumulator. -/
def processFile (gs : ScanState) (rows : List Row) : FileState × ScanState :=
  rows.foldl (fun p row => processRow p.1 p.2 row) (initFileState, gs)

/-- From `export_initial_contacts.py`: the outer loop over the input files,
returning each file's final per-file accumulator and the final cumulative
accumulator. -/
def processFiles (files : List (List Row)) : List FileState × ScanState :=
  files.foldl
    (fun acc rows =>
      let r := processFile acc.2 rows
      (acc.1 ++ [r.1], r.2))
    ([], initScanState)

/-- Python set insertion on the list model: add the element unless already
present. -/
def set_insert (l : List String) (x : String) : List String :=
  if x ∈ l then l else x :: l

/-- From `export_initial_contacts.py`: one step of the uuid-to-phone-number
conversion loop. `lut` is the batch lookup result from the external identity
table; a resolvable uuid contributes a `+`-prefixed phone number, an
unresolvable one is collected in the skipped set. -/
def convert_step (lut : String → Option String)
    (acc : List String × List String) (uuid : String) :
    List String × List String :=
  match lut uuid with
  | some data => (set_insert acc.1 ("+" ++ data), acc.2)
  | none => (acc.1, set_insert acc.2 uuid)

/-- From `export_initial_contacts.py`: the uuid-to-phone-number conversion
loop over the deduplicated uuid set, returning (phone_numbers, skipped_uuids). -/
def convert_uuids (lut : String → Option String) (uuids : List String) :
    List String × List String :=
  uuids.foldl (convert_step lut) ([], [])

/-- From `export_initial_contacts.py`: the contacts CSV as a list of lines —
the header followed by one row per phone number (the `Name` column is left
empty). -/
def export_contacts_csv (phone_numbers : List String) : List String :=
  "URN:Tel,Name" :: phone_numbers.map (fun n => n ++ ",")

/-- The episode identifiers declared for the SSF-DCF variant in
`get_rqa_coding_plans`. -/
def dcf_episodes : List String :=
  ["rqa_dcf_s01e01", "rqa_dcf_s01e02", "rqa_dcf_s01e03", "rqa_dcf_s01e04"]

/-- The episode identifiers declared for the SSF-SLD variant in
`get_rqa_coding_plans`. -/
def sld_episodes : List String :=
  ["rqa_sld_s01e01", "rqa_sld_s01e02", "rqa_sld_s01e03", "rqa_sld_s01e04",
   "rqa_sld_s01e05", "rqa_sld_s01_closeout"]

/-- The SSF-DCF episode identifiers with the `rqa_` prefix removed. -/
def dcf_dataset_names : List String :=
  ["dcf_s01e01", "dcf_s01e02", "dcf_s01e03", "dcf_s01e04"]

/-- The SSF-SLD episode identifiers with the `rqa_` prefix removed. -/
def sld_dataset_names : List String :=
  ["sld_s01e01", "sld_s01e02", "sld_s01e03", "sld_s01e04",
   "sld_s01e05", "sld_s01_closeout"]

/-- Modelled from the spec: the uniqueness check the CodingPlan constructor
(`src/lib/configuration_objects`, a repository module not included under
`src/`) performs at construction time — within one plan, the configurations'
`coded_field` values are pairwise distinct and the `analysis_file_key` values
are pairwise distinct. -/
def plan_fields_unique (p : CodingPlan) : Bool :=
  decide (p.coding_configurations.map CodingConfiguration.coded_field).Nodup &&
  decide (p.coding_configurations.map CodingConfiguration.analysis_file_key).Nodup

/-- Sum of the location counters over the target locations. -/
def target_count_sum (c : String → Nat) : Nat :=
  (TARGET_LOCATIONS.map c).sum

/-- Scenario data: the shared respondent uuid of the two-file scenario. -/
def scenario_uid : String := "avf-phone-uuid-0001"

/-- Scenario data: two input CSV files, each holding one row with the same
uid and a state equal to a target location. -/
def scenario_files : List (List Row) :=
  [[{ state := GALMUDUG, uid := some scenario_uid }],
   [{ state := GALMUDUG, uid := some scenario_uid }]]

/-- Scenario data: an identity table resolving the scenario uuid to one
phone number. -/
def scenario_lut : String → Option String :=
  fun u => if u = scenario_uid then some "252700000001" else none

/-- C1: for both pipeline variants accepted by `get_rqa_coding_plans`, the
catalog returns one coding plan per declared episode (four for SSF-DCF, six
for SSF-SLD), and each plan's `dataset_name` is its episode identifier with
the `rqa_` prefix removed. -/
theorem rqa_catalog_one_plan_per_episode :
    (get_rqa_coding_plans "SSF-DCF").map List.length = some dcf_episodes.length ∧
    (get_rqa_coding_plans "SSF-SLD").map List.length = some sld_episodes.length ∧
    dcf_episodes.length = 4 ∧
    sld_episodes.length = 6 ∧
    (get_rqa_coding_plans "SSF-DCF").map (fun ps => ps.map CodingPlan.dataset_name)
      = some (dcf_dataset_names.map some) ∧
    (get_rqa_coding_plans "SSF-SLD").map (fun ps => ps.map CodingPlan.dataset_name)
      = some (sld_dataset_names.map some) ∧
    dcf_episodes = dcf_dataset_names.map (fun d => "rqa_" ++ d) ∧
    sld_episodes = sld_dataset_names.map (fun d => "rqa_" ++ d) := by
  decide

/-- C5: any pipeline variant outside the known set fails the catalog's
assertion (embedded as `none`) before any plan is produced. -/
theorem rqa_catalog_rejects_unknown_variant (v : String)
    (h1 : v ≠ "SSF-DCF") (h2 : v ≠ "SSF-SLD") :
    get_rqa_coding_plans v = none := by
  unfold get_rqa_coding_plans
  rw [if_neg h1, if_neg h2]

/-- Witness for C5 at the concrete variant "IMAQAL". -/
theorem rqa_catalog_rejects_unknown_variant_witness :
    get_rqa_coding_plans "IMAQAL" = none :=
  rqa_catalog_rejects_unknown_variant "IMAQAL" (by decide) (by decide)

/-- C6: the demographic catalog returns the same fixed ordered list of five
plans — gender, age, recently-displaced, household-language, location — for
every argument, and the follow-up and engagement catalogs always return the
empty sequence. -/
theorem demog_catalog_fixed_followup_engagement_empty :
    (∀ v w : String, get_demog_coding_plans v = get_demog_coding_plans w) ∧
    (get_demog_coding_plans "SSF-DCF").map CodingPlan.raw_field
      = ["gender_raw", "age_raw", "recently_displaced_raw",
         "household_language_raw", "location_raw"] ∧
    (get_demog_coding_plans "SSF-DCF").length = 5 ∧
    (∀ v : String, get_follow_up_coding_plans v = []) ∧
    (∀ v : String, get_engagement_coding_plans v = []) :=
  ⟨fun _ _ => rfl, by decide, rfl, fun _ => rfl, fun _ => rfl⟩

/-- C4: every plan produced by any of the four catalog functions passes the
construction-time uniqueness check: within one plan the `coded_field` values
are pairwise distinct and the `analysis_file_key` values are pairwise
distinct. -/
theorem catalog_plans_pass_uniqueness_check :
    (∀ v ps, get_rqa_coding_plans v = some ps → ps.all plan_fields_unique = true) ∧
    (∀ v : String, (get_demog_coding_plans v).all plan_fields_unique = true) ∧
    (∀ v : String, (get_follow_up_coding_plans v).all plan_fields_unique = true) ∧
    (∀ v : String, (get_engagement_coding_plans v).all plan_fields_unique = true) := by
  refine ⟨?_, fun _ => rfl, fun _ => rfl, fun _ => rfl⟩
  intro v ps h
  unfold get_rqa_coding_plans at h
  split at h
  · cases Option.some.inj h
    decide
  · split at h
    · cases Option.some.inj h
      decide
    · exact Option.noConfusion h

/-- Witness for C4 at the concrete variant "SSF-DCF". -/
theorem catalog_plans_pass_uniqueness_check_witness :
    ((get_rqa_coding_plans "SSF-DCF").getD []).all plan_fields_unique = true :=
  catalog_plans_pass_uniqueness_check.1 "SSF-DCF"
    ((get_rqa_coding_plans "SSF-DCF").getD []) rfl

/-- C2 (amended): the composite district cleaner returns `NOT_CODED` whenever
the Mogadishu sub-district cleaner matches the text, and otherwise returns
the district cleaner's result; at most one of the pair (sub-district result,
composite district result) is ever non-`NOT_CODED` — never both. -/
theorem district_cleaner_mutual_exclusion (text : String) :
    (clean_mogadishu_sub_district text ≠ NOT_CODED →
      clean_district_if_no_mogadishu_sub_district text = NOT_CODED) ∧
    (clean_mogadishu_sub_district text = NOT_CODED →
      clean_district_if_no_mogadishu_sub_district text = clean_somalia_district text) ∧
    ¬(clean_mogadishu_sub_district text ≠ NOT_CODED ∧
      clean_district_if_no_mogadishu_sub_district text ≠ NOT_CODED) := by
  unfold clean_district_if_no_mogadishu_sub_district
  by_cases h : clean_mogadishu_sub_district text = NOT_CODED <;> simp [h]

/-- Witness for C2's amended theorem at the concrete text "hodan" (a
recognised Mogadishu sub-district). -/
theorem district_cleaner_mutual_exclusion_witness :
    clean_district_if_no_mogadishu_sub_district "hodan" = NOT_CODED :=
  (district_cleaner_mutual_exclusion "hodan").1 (by decide)

/-- C2 counterexample: the claim's "exactly one of the pair is
non-`NOT_CODED`" fails at the text "abc", which neither cleaner recognises —
there, both the sub-district result and the composite district result are
`NOT_CODED`. -/
theorem district_cleaner_exactly_one_refuted :
    ¬ (∀ text : String,
        (clean_mogadishu_sub_district text ≠ NOT_CODED ∧
          clean_district_if_no_mogadishu_sub_district text = NOT_CODED) ∨
        (clean_mogadishu_sub_district text = NOT_CODED ∧
          clean_district_if_no_mogadishu_sub_district text ≠ NOT_CODED)) := by
  intro h
  exact absurd (h "abc") (by decide)

/-- C3: the age filter returns the string form of the cleaned age exactly
when the external age cleaner yields an integer in [10, 100), and
`NOT_CODED` otherwise; in particular "25" maps to "25" while "150", "5" and
"abc" map to `NOT_CODED`. -/
theorem age_range_filter_spec :
    (∀ text age, swahili_clean_age text = some age →
      clean_age_with_range_filter text
        = if 10 ≤ age ∧ age < 100 then toString age else NOT_CODED) ∧
    (∀ text, swahili_clean_age text = none →
      clean_age_with_range_filter text = NOT_CODED) ∧
    clean_age_with_range_filter "25" = "25" ∧
    clean_age_with_range_filter "150" = NOT_CODED ∧
    clean_age_with_range_filter "5" = NOT_CODED ∧
    clean_age_with_range_filter "abc" = NOT_CODED := by
  refine ⟨?_, ?_, by decide, by decide, by decide, by decide⟩
  · intro text age h
    unfold clean_age_with_range_filter
    rw [h]
  · intro text h
    unfold clean_age_with_range_filter
    rw [h]

/-- Witness for C3 at the concrete text "25", whose cleaned age 25 lies in
the accepted range. -/
theorem age_range_filter_spec_witness :
    clean_age_with_range_filter "25"
      = if 10 ≤ (25 : Int) ∧ (25 : Int) < 100 then toString (25 : Int) else NOT_CODED :=
  age_range_filter_spec.1 "25" 25 (by decide)

/-- C9: a row whose state is a target location but which carries no uid is
skipped entirely by the per-row scan — both accumulators are returned
unchanged, so no counter moves and no set grows. -/
theorem row_in_target_location_without_uid_skipped
    (fs : FileState) (gs : ScanState) (row : Row)
    (hloc : row.state ∈ TARGET_LOCATIONS) (huid : row.uid = none) :
    processRow fs gs row = (fs, gs) := by
  obtain ⟨st, u⟩ := row
  cases huid
  unfold processRow
  split
  · rfl
  · split
    · simp only [ite_self]
    · simp_all

/-- Witness for C9 at a concrete Galmudug row with no uid column. -/
theorem row_in_target_location_without_uid_skipped_witness :
    processRow initFileState initScanState { state := GALMUDUG, uid := none }
      = (initFileState, initScanState) :=
  row_in_target_location_without_uid_skipped initFileState initScanState
    { state := GALMUDUG, uid := none } (by decide) rfl

/-- C7: in the two-file scenario — each file holding one row with the same
uid and a target-location state — each file's per-file counter reports 1,
the cumulative counter also reports 1 (the uid's first occurrence is not
double-counted across files), and the exported contacts CSV holds exactly
one phone-number row for that uid. -/
theorem exporter_two_files_same_uid :
    (processFiles scenario_files).1.map (fun fs => fs.file_counts GALMUDUG) = [1, 1] ∧
    (processFiles scenario_files).1.map (fun fs => fs.file_uuids) = [[scenario_uid], [scenario_uid]] ∧
    (processFiles scenario_files).2.counts GALMUDUG = 1 ∧
    (processFiles scenario_files).2.counts SOUTH_WEST_STATE = 0 ∧
    (processFiles scenario_files).2.uuids = [scenario_uid] ∧
    (convert_uuids scenario_lut (processFiles scenario_files).2.uuids).1
      = ["+252700000001"] ∧
    export_contacts_csv (convert_uuids scenario_lut (processFiles scenario_files).2.uuids).1
      = ["URN:Tel,Name", "+252700000001,"] := by
  refine ⟨by decide, by decide, by decide, by decide, by decide, by decide, by decide⟩

/-- Incrementing the counter map at a target location raises the sum of the
target-location counters by exactly one. -/
theorem target_count_sum_bump (c : String → Nat) (st : String)
    (hmem : st ∈ TARGET_LOCATIONS) :
    target_count_sum (fun l => if l = st then c l + 1 else c l)
      = target_count_sum c + 1 := by
  have hmem' : st = GALMUDUG ∨ st = SOUTH_WEST_STATE := by
    simpa [TARGET_LOCATIONS] using hmem
  have hne : SOUTH_WEST_STATE ≠ GALMUDUG := by decide
  have hne' : GALMUDUG ≠ SOUTH_WEST_STATE := by decide
  rcases hmem' with rfl | rfl
  · simp [target_count_sum, TARGET_LOCATIONS, hne]
    omega
  · simp [target_count_sum, TARGET_LOCATIONS, hne']
    omega

/-- C10: throughout the exporter's scan, the sum of the cumulative
target-location counters equals the size of the cumulative uuid set, and the
sum of the per-file counters equals the size of the per-file uuid set: both
hold of the initial accumulators and are preserved by every row step, so
each uid is counted exactly once, at its first occurrence. -/
theorem scan_counters_match_set_sizes :
    target_count_sum initFileState.file_counts = initFileState.file_uuids.length ∧
    target_count_sum initScanState.counts = initScanState.uuids.length ∧
    (∀ fs gs row,
      target_count_sum fs.file_counts = fs.file_uuids.length →
      target_count_sum gs.counts = gs.uuids.length →
      target_count_sum (processRow fs gs row).1.file_counts
          = (processRow fs gs row).1.file_uuids.length ∧
      target_count_sum (processRow fs gs row).2.counts
          = (processRow fs gs row).2.uuids.length) := by
  refine ⟨rfl, rfl, ?_⟩
  intro fs gs row hf hg
  obtain ⟨st, u⟩ := row
  by_cases hstop : st = STOP
  · simp only [processRow, if_pos hstop]
    exact ⟨hf, hg⟩
  · by_cases hmem : st ∈ TARGET_LOCATIONS
    · cases u with
      | none =>
        simp only [processRow, if_neg hstop, if_pos hmem]
        exact ⟨hf, hg⟩
      | some uu =>
        simp only [processRow, if_neg hstop, if_pos hmem]
        constructor
        · by_cases hin : uu ∈ fs.file_uuids
          · simp only [if_pos hin]
            exact hf
          · simp only [if_neg hin]
            rw [target_count_sum_bump fs.file_counts st hmem]
            simp [hf]
        · by_cases hin : uu ∈ gs.uuids
          · simp only [if_pos hin]
            exact hg
          · simp only [if_neg hin]
            rw [target_count_sum_bump gs.counts st hmem]
            simp [hg]
    · simp only [processRow, if_neg hstop, if_neg hmem]
      exact ⟨hf, hg⟩

/-- Witness for C10's preservation step at the initial accumulators and a
concrete Galmudug row. -/
theorem scan_counters_match_set_sizes_witness :
    target_count_sum
        (processRow initFileState initScanState
          { state := GALMUDUG, uid := some "avf-phone-uuid-7" }).1.file_counts
      = (processRow initFileState initScanState
          { state := GALMUDUG, uid := some "avf-phone-uuid-7" }).1.file_uuids.length :=
  (scan_counters_match_set_sizes.2.2 initFileState initScanState
    { state := GALMUDUG, uid := some "avf-phone-uuid-7" } rfl rfl).1

/-- Membership in the python-set insertion model. -/
theorem mem_set_insert {l : List String} {x y : String} :
    y ∈ set_insert l x ↔ y = x ∨ y ∈ l := by
  unfold set_insert
  split
  · next h =>
    constructor
    · exact Or.inr
    · rintro (rfl | hy)
      · exact h
      · exact hy
  · exact List.mem_cons

/-- Elements already accumulated before the conversion loop survive it, in
both the phone-number set and the skipped set. -/
theorem convert_fold_mono (lut : String → Option String) (l : List String) :
    ∀ acc : List String × List String, ∀ p : String,
      (p ∈ acc.1 → p ∈ (l.foldl (convert_step lut) acc).1) ∧
      (p ∈ acc.2 → p ∈ (l.foldl (convert_step lut) acc).2) := by
  induction l with
  | nil => exact fun acc p => ⟨id, id⟩
  | cons v rest ih =>
    intro acc p
    simp only [List.foldl_cons]
    constructor
    · intro hp
      refine (ih (convert_step lut acc v) p).1 ?_
      unfold convert_step
      cases h : lut v with
      | none => exact hp
      | some d => exact mem_set_insert.mpr (Or.inr hp)
    · intro hp
      refine (ih (convert_step lut acc v) p).2 ?_
      unfold convert_step
      cases h : lut v with
      | none => exact mem_set_insert.mpr (Or.inr hp)
      | some d => exact hp

/-- A uuid of the scanned list that the identity table does not resolve ends
up in the skipped set. -/
theorem convert_fold_skips (lut : String → Option String) (l : List String) :
    ∀ acc u, u ∈ l → lut u = none → u ∈ (l.foldl (convert_step lut) acc).2 := by
  induction l with
  | nil => intro acc u hu _; cases hu
  | cons v rest ih =>
    intro acc u hu hnone
    simp only [List.foldl_cons]
    rcases List.mem_cons.mp hu with rfl | hu'
    · refine (convert_fold_mono lut rest _ u).2 ?_
      unfold convert_step
      rw [hnone]
      exact mem_set_insert.mpr (Or.inl rfl)
    · exact ih _ u hu' hnone

/-- A uuid of the scanned list that the identity table resolves contributes
its prefixed phone number to the exported set. -/
theorem convert_fold_resolves (lut : String → Option String) (l : List String) :
    ∀ acc v d, v ∈ l → lut v = some d →
      ("+" ++ d) ∈ (l.foldl (convert_step lut) acc).1 := by
  induction l with
  | nil => intro acc v d hv _; cases hv
  | cons w rest ih =>
    intro acc v d hv hsome
    simp only [List.foldl_cons]
    rcases List.mem_cons.mp hv with rfl | hv'
    · refine (convert_fold_mono lut rest _ _).1 ?_
      unfold convert_step
      rw [hsome]
      exact mem_set_insert.mpr (Or.inl rfl)
    · exact ih _ v d hv' hsome

/-- Every phone number accumulated by the conversion loop traces back to a
uuid of the scanned list that the identity table resolves. -/
theorem convert_fold_phones_source (lut : String → Option String) (l : List String) :
    ∀ acc p, p ∈ (l.foldl (convert_step lut) acc).1 →
      p ∈ acc.1 ∨ ∃ v, v ∈ l ∧ ∃ d, lut v = some d ∧ p = "+" ++ d := by
  induction l with
  | nil => exact fun acc p hp => Or.inl hp
  | cons w rest ih =>
    intro acc p hp
    simp only [List.foldl_cons] at hp
    rcases ih _ p hp with h | ⟨v, hv, d, hd, rfl⟩
    · revert h
      unfold convert_step
      cases hw : lut w with
      | none => exact fun h => Or.inl h
      | some d =>
        intro h
        rcases mem_set_insert.mp h with rfl | h'
        · exact Or.inr ⟨w, List.mem_cons_self w rest, d, hw, rfl⟩
        · exact Or.inl h'
    · exact Or.inr ⟨v, List.mem_cons_of_mem w hv, d, hd, rfl⟩

/-- C8: a uuid of the deduplicated set that the identity table does not
resolve produces no row in the output contacts CSV (every non-header line
traces back to a resolvable uuid) and is added to the skipped set, while
the conversion and export still proceed for every resolvable uuid. -/
theorem exporter_skips_unresolved_uuid (lut : String → Option String)
    (uuids : List String) (u : String)
    (hmem : u ∈ uuids) (hnone : lut u = none) :
    u ∈ (convert_uuids lut uuids).2 ∧
    (∀ line ∈ (export_contacts_csv (convert_uuids lut uuids).1).tail,
      ∃ v, v ∈ uuids ∧ ∃ d, lut v = some d ∧ line = ("+" ++ d) ++ ",") ∧
    (∀ v d, v ∈ uuids → lut v = some d →
      ("+" ++ d) ∈ (convert_uuids lut uuids).1) := by
  refine ⟨convert_fold_skips lut uuids ([], []) u hmem hnone, ?_, ?_⟩
  · intro line hline
    simp only [export_contacts_csv, List.tail_cons, List.mem_map] at hline
    obtain ⟨n, hn, rfl⟩ := hline
    rcases convert_fold_phones_source lut uuids ([], []) n hn with h | ⟨v, hv, d, hd, rfl⟩
    · exact absurd h (List.not_mem_nil n)
    · exact ⟨v, hv, d, hd, rfl⟩
  · intro v d hv hd
    exact convert_fold_resolves lut uuids ([], []) v d hv hd

/-- Witness for C8 at a one-element uuid set that the identity table cannot
resolve at all. -/
theorem exporter_skips_unresolved_uuid_witness :
    "uuid-lost" ∈ (convert_uuids (fun _ => none) ["uuid-lost"]).2 :=
  (exporter_skips_unresolved_uuid (fun _ => none) ["uuid-lost"] "uuid-lost"
    (List.mem_cons_self _ _) rfl).1
